import Mathlib

/-!
# exile: process launch and pipe lifecycle (`priv/hello.c`)

A shallow embedding of the NIF source `priv/hello.c`.

* The kernel is an explicit state (`Kernel`): a descriptor table, `errno`, a
  counter naming the pipes created so far, the list of calls made so far, and
  the descriptor table the most recent `execvp` call was entered with.
* What the kernel answers to a call that may fail is not decided by the
  program, so it is taken from an outcome record (`Outcomes`, `ReadRet`).
  The general theorems quantify over these outcomes; the evaluations fix them.
* C `int` values are `Int`; a byte is a `Nat` below 256; a C string is the list
  of its bytes without the terminator.
* `start_proccess` is followed through one process: after `fork` returns 0 the
  state is the child's, otherwise the parent's.
-/

namespace Exile

/-! ## Kernel model -/

/-- What an open descriptor refers to. -/
inductive FileObj
  /-- An open file description that existed before the call under study. -/
  | inherited (id : Nat)
  /-- The read end of the n-th pipe created. -/
  | pipe_read (n : Nat)
  /-- The write end of the n-th pipe created. -/
  | pipe_write (n : Nat)
  deriving DecidableEq

/-- A byte string: the characters of a C string, terminator excluded. -/
abbrev CString := List Nat

/-- The calls a process makes, as recorded in `Kernel.trace`. -/
inductive Call
  | pipe
  | fcntl_getfl (fd : Int)
  | fcntl_setfl (fd : Int) (flags : Int)
  | fork
  | close (fd : Int)
  | dup2 (oldfd newfd : Int)
  | execvp (file : Option CString) (argv : List CString)
  | perror (msg : String)
  | read (fd : Int) (count : Nat)
  deriving DecidableEq

/-- The descriptor table of a process: `none` means the number is not open. -/
abbrev FdTable := Int → Option FileObj

/-- The part of the process state the kernel and libc own. -/
structure Kernel where
  /-- The descriptor table. -/
  fdt : FdTable
  /-- The thread's `errno`. -/
  errno : Int
  /-- How many pipes have been created; the next pipe gets this number. -/
  npipes : Nat
  /-- Calls made so far, oldest first. -/
  trace : List Call
  /-- The descriptor table at the moment of the most recent `execvp` call. -/
  at_exec : Option FdTable

/-- The answer of a call that returns an `int`: the value, and the `errno` it
sets when the value is negative. -/
structure Ret where
  val : Int
  errno : Int
  deriving DecidableEq

/-- The answer of `pipe(2)`. -/
inductive PipeRet
  /-- Failure: returns -1 and sets `errno`; the array is left alone. -/
  | fail (errno : Int)
  /-- Success: returns 0 and stores the two new descriptors. -/
  | ok (rd wr : Int)
  deriving DecidableEq

/-- The answer of `read(2)`. -/
inductive ReadRet
  /-- Failure: returns -1 and sets `errno`. -/
  | fail (errno : Int)
  /-- Success: these bytes are available, in order. -/
  | ok (data : List Nat)
  deriving DecidableEq

/-- Records a call in the trace. -/
def Kernel.log (k : Kernel) (c : Call) : Kernel :=
  { k with trace := k.trace ++ [c] }

/-- Sets `errno`. -/
def Kernel.fail (k : Kernel) (e : Int) : Kernel :=
  { k with errno := e }

/-- Makes descriptor `fd` refer to `obj` (`none` closes it). -/
def Kernel.setfd (k : Kernel) (fd : Int) (obj : Option FileObj) : Kernel :=
  { k with fdt := fun x => if x = fd then obj else k.fdt x }

/-- Whether descriptor `fd` is open. -/
def Kernel.isOpen (k : Kernel) (fd : Int) : Bool :=
  (k.fdt fd).isSome

/-- The errno value `EBADF` (Linux). -/
def EBADF : Int := 9

/-- The call `close(fd)`: an open descriptor is released and 0 returned; any
other number gives -1 with `EBADF`. -/
def sys_close (fd : Int) (k : Kernel) : Int × Kernel :=
  let k := k.log (.close fd)
  if k.isOpen fd then (0, k.setfd fd none) else (-1, k.fail EBADF)

/-- The call `pipe(fildes)`: the two descriptors the kernel hands out refer to
the two ends of a new pipe. -/
def sys_pipe (o : PipeRet) (k : Kernel) : Int × Option (Int × Int) × Kernel :=
  let k := k.log .pipe
  match o with
  | .fail e => (-1, none, k.fail e)
  | .ok rd wr =>
    let n := k.npipes
    let k := (k.setfd rd (some (.pipe_read n))).setfd wr (some (.pipe_write n))
    (0, some (rd, wr), { k with npipes := n + 1 })

/-- The call `fcntl(fd, F_GETFL)`: returns the flags or -1. -/
def sys_fcntl_getfl (o : Ret) (fd : Int) (k : Kernel) : Int × Kernel :=
  let k := k.log (.fcntl_getfl fd)
  if o.val < 0 then (o.val, k.fail o.errno) else (o.val, k)

/-- The call `fcntl(fd, F_SETFL, flags)`: returns 0 or -1. -/
def sys_fcntl_setfl (o : Ret) (fd : Int) (flags : Int) (k : Kernel) : Int × Kernel :=
  let k := k.log (.fcntl_setfl fd flags)
  if o.val < 0 then (o.val, k.fail o.errno) else (o.val, k)

/-- The call `fork()`: returns -1, 0 (in the child) or the child's pid (in the
parent). The child starts with a copy of the descriptor table. -/
def sys_fork (o : Ret) (k : Kernel) : Int × Kernel :=
  let k := k.log .fork
  if o.val < 0 then (o.val, k.fail o.errno) else (o.val, k)

/-- The call `dup2(oldfd, newfd)`: on success `newfd` refers to what `oldfd`
refers to and `newfd` is returned. It fails when the kernel says so, and with
`EBADF` when `oldfd` is not open. -/
def sys_dup2 (o : Ret) (oldfd newfd : Int) (k : Kernel) : Int × Kernel :=
  let k := k.log (.dup2 oldfd newfd)
  if o.val < 0 then (o.val, k.fail o.errno)
  else if k.isOpen oldfd then (newfd, k.setfd newfd (k.fdt oldfd))
  else (-1, k.fail EBADF)

/-- The call `execvp(file, argv)`: `none` when the image is replaced (the call
does not return), `some k` when it returns -1. Either way the descriptor table
the call was entered with is remembered in `at_exec`. -/
def sys_execvp (o : Option Int) (file : Option CString) (argv : List CString)
    (k : Kernel) : Kernel × Option Kernel :=
  let k := { k.log (.execvp file argv) with at_exec := some k.fdt }
  match o with
  | none => (k, none)
  | some e => (k, some (k.fail e))

/-- The libc call `perror(msg)`: `clobber` is the `errno` a failing write to
the standard error stream leaves behind, if any. -/
def perror (clobber : Option Int) (msg : String) (k : Kernel) : Kernel :=
  let k := k.log (.perror msg)
  match clobber with
  | none => k
  | some e => k.fail e

/-- The call `read(fd, buf, count)`: at most `count` of the available bytes are
stored at the start of `buf`, and their number is returned. -/
def sys_read (o : ReadRet) (fd : Int) (buf : List Nat) (count : Nat) (k : Kernel) :
    Int × List Nat × Kernel :=
  let k := k.log (.read fd count)
  match o with
  | .fail e => (-1, buf, k.fail e)
  | .ok data =>
    let got := data.take count
    ((got.length : Int), got ++ buf.drop got.length, k)

/-! ## `priv/hello.c`: constants and types -/

def PIPE_READ : Int := 0
def PIPE_WRITE : Int := 1
def MAX_ARGUMENTS : Nat := 20
def MAX_ARGUMENT_LEN : Nat := 1024

/-- From `unistd.h`. -/
def STDIN_FILENO : Int := 0
/-- From `unistd.h`. -/
def STDOUT_FILENO : Int := 1
/-- From `unistd.h`. -/
def STDERR_FILENO : Int := 2
/-- From `fcntl.h` (Linux value). -/
def O_NONBLOCK : Int := 2048
/-- From `fcntl.h` (Linux value). -/
def O_CLOEXEC : Int := 524288

inductive exec_status
  | SUCCESS
  | PIPE_CREATE_ERROR
  | PIPE_FLAG_ERROR
  | FORK_ERROR
  | PIPE_DUP_ERROR
  deriving DecidableEq

structure ExecResult where
  status : exec_status
  err : Int
  pid : Int
  pipe_in : Int
  pipe_out : Int
  deriving DecidableEq

/-- The local array `int pipes[3][2]`. -/
abbrev Pipes := Int → Int → Int

/-- Stores `v` in `pipes[i][j]`. -/
def Pipes.set (pipes : Pipes) (i j v : Int) : Pipes :=
  fun a b => if a = i ∧ b = j then v else pipes a b

/-- How a call of a C function ends in the process that is followed. -/
inductive Exit (α : Type)
  /-- The function returned `val`, leaving the process in state `k`. -/
  | returned (val : α) (k : Kernel)
  /-- The process image was replaced by `execvp` in state `k`: the function
  never returns. -/
  | replaced (k : Kernel)

/-- The value handed back to the caller, if the call returns. -/
def Exit.val? {α : Type} : Exit α → Option α
  | .returned v _ => some v
  | .replaced _ => none

/-- The state of the process when the call ends. -/
def Exit.state {α : Type} : Exit α → Kernel
  | .returned _ k => k
  | .replaced k => k

/-- C's `a || b || ...` over operands with side effects: operands are evaluated
left to right and evaluation stops at the first true one. -/
def or_chain {σ : Type} : List (σ → Bool × σ) → σ → Bool × σ
  | [], s => (false, s)
  | f :: fs, s => if (f s).1 then (true, (f s).2) else or_chain fs (f s).2

/-! ## `priv/hello.c`: launch -/

/-- The source's `set_flag`:
`return fcntl(fd, F_SETFL, fcntl(fd, F_GETFL) | O_NONBLOCK | O_CLOEXEC);` -/
def set_flag (g s : Ret) (fd : Int) (k : Kernel) : Int × Kernel :=
  let fl := sys_fcntl_getfl g fd k
  sys_fcntl_setfl s fd (Int.lor (Int.lor fl.1 O_NONBLOCK) O_CLOEXEC) fl.2

/-- The source's `close_all`: for each of the three rows, each entry that is
nonzero is closed. -/
def close_all (pipes : Pipes) (k : Kernel) : Kernel :=
  [0, 1, 2].foldl
    (fun k i =>
      let k := if pipes i PIPE_READ ≠ 0 then (sys_close (pipes i PIPE_READ) k).2 else k
      if pipes i PIPE_WRITE ≠ 0 then (sys_close (pipes i PIPE_WRITE) k).2 else k)
    k

/-- The source's macro `RETURN_ERROR(_status)`. -/
def RETURN_ERROR (status : exec_status) (result : ExecResult) (pipes : Pipes)
    (k : Kernel) : Exit ExecResult :=
  let result := { result with status := status }
  let result := { result with err := k.errno }
  let k := close_all pipes k
  .returned result k

/-- The expression `pipe(pipes[i]) == -1`. -/
def pipe_fails (o : PipeRet) (i : Int) (s : Pipes × Kernel) : Bool × Pipes × Kernel :=
  let r := sys_pipe o s.2
  match r.2.1 with
  | some (rd, wr) => (r.1 == -1, (s.1.set i PIPE_READ rd).set i PIPE_WRITE wr, r.2.2)
  | none => (r.1 == -1, s.1, r.2.2)

/-- The expression `set_flag(fd) < 0`. -/
def set_flag_fails (g s : Ret) (fd : Int) (k : Kernel) : Bool × Kernel :=
  let rc := set_flag g s fd k
  (decide (rc.1 < 0), rc.2)

/-- The answers of the kernel to the calls of one `start_proccess`, by call
site in program order. -/
structure Outcomes where
  /-- The i-th `pipe` call (i = 0, 1, 2). -/
  pipe : Nat → PipeRet
  /-- The `F_GETFL` call of the j-th `set_flag` (j = 0, ..., 5). -/
  getfl : Nat → Ret
  /-- The `F_SETFL` call of the j-th `set_flag` (j = 0, ..., 5). -/
  setfl : Nat → Ret
  /-- The `fork` call. -/
  fork : Ret
  /-- The j-th `dup2` call (j = 0, 1). -/
  dup2 : Nat → Ret
  /-- The `execvp` call: `none` replaces the image, `some e` fails with `e`. -/
  execvp : Option Int
  /-- The `errno` left by `perror`, if it changes it. -/
  perror : Option Int

/-- The statements of `start_proccess` under the label `default:` of the
`switch` on `pid`: the parent's bookkeeping. -/
def start_proccess_default (result : ExecResult) (pipes : Pipes) (pid : Int)
    (k : Kernel) : Exit ExecResult :=
  let k := (sys_close (pipes STDIN_FILENO PIPE_READ) k).2
  let k := (sys_close (pipes STDOUT_FILENO PIPE_WRITE) k).2
  let result := { result with pid := pid }
  let result := { result with pipe_in := pipes STDIN_FILENO PIPE_WRITE }
  let result := { result with pipe_out := pipes STDOUT_FILENO PIPE_READ }
  let result := { result with status := .SUCCESS }
  .returned result k

/-- The statements of `start_proccess` under the label `case 0:` of the
`switch` on `pid`: the child's setup. There is no `break` after `perror`, so
when `execvp` returns, control falls through into the statements under
`default:`. -/
def start_proccess_case_0 (o : Outcomes) (result : ExecResult) (args : List CString)
    (pipes : Pipes) (pid : Int) (k : Kernel) : Exit ExecResult :=
  let k := (sys_close STDIN_FILENO k).2
  let k := (sys_close STDOUT_FILENO k).2
  let dup_in := sys_dup2 (o.dup2 0) (pipes STDIN_FILENO PIPE_READ) STDIN_FILENO k
  let k := dup_in.2
  if dup_in.1 < 0 then RETURN_ERROR .PIPE_DUP_ERROR result pipes k
  else
  let dup_out := sys_dup2 (o.dup2 1) (pipes STDOUT_FILENO PIPE_WRITE) STDOUT_FILENO k
  let k := dup_out.2
  if dup_out.1 < 0 then RETURN_ERROR .PIPE_DUP_ERROR result pipes k
  else
  let k := close_all pipes k
  match sys_execvp o.execvp args.head? args k with
  | (k, none) => .replaced k
  | (_, some k) =>
    let k := perror o.perror "execvp(): failed" k
    start_proccess_default result pipes pid k

/-- The source's `start_proccess`. `result` is the indeterminate initial
content of the local of that name; `args` is the NULL-terminated `char *args[]`
(so `args[0]` is `args.head?`, NULL for the empty vector). -/
def start_proccess (o : Outcomes) (result : ExecResult) (args : List CString)
    (k : Kernel) : Exit ExecResult :=
  let pipes : Pipes := fun _ _ => 0
  let created := or_chain
    [pipe_fails (o.pipe 0) STDIN_FILENO,
     pipe_fails (o.pipe 1) STDOUT_FILENO,
     pipe_fails (o.pipe 2) STDERR_FILENO] (pipes, k)
  let pipes := created.2.1
  let k := created.2.2
  if created.1 then RETURN_ERROR .PIPE_CREATE_ERROR result pipes k
  else
  let flagged := or_chain
    [set_flag_fails (o.getfl 0) (o.setfl 0) (pipes STDIN_FILENO PIPE_READ),
     set_flag_fails (o.getfl 1) (o.setfl 1) (pipes STDIN_FILENO PIPE_WRITE),
     set_flag_fails (o.getfl 2) (o.setfl 2) (pipes STDOUT_FILENO PIPE_READ),
     set_flag_fails (o.getfl 3) (o.setfl 3) (pipes STDOUT_FILENO PIPE_WRITE),
     set_flag_fails (o.getfl 4) (o.setfl 4) (pipes STDERR_FILENO PIPE_READ),
     set_flag_fails (o.getfl 5) (o.setfl 5) (pipes STDERR_FILENO PIPE_WRITE)] k
  let k := flagged.2
  if flagged.1 then RETURN_ERROR .PIPE_FLAG_ERROR result pipes k
  else
  let forked := sys_fork o.fork k
  let pid := forked.1
  let k := forked.2
  if pid = -1 then RETURN_ERROR .FORK_ERROR result pipes k
  else if pid = 0 then start_proccess_case_0 o result args pipes pid k
  else start_proccess_default result pipes pid k

/-! ## Host terms (`erl_nif.h`) -/

/-- The host terms the NIFs receive and build. -/
inductive Term
  | int (n : Int)
  | atom (name : String)
  | nil
  | cons (head tail : Term)
  | binary (bytes : List Nat)
  | tuple2 (a b : Term)
  | tuple4 (a b c d : Term)
  deriving DecidableEq

/-- What a NIF hands back to the host: a term, or the `badarg` exception
raised by `enif_make_badarg`. -/
inductive NifReturn
  | badarg
  | term (t : Term)
  deriving DecidableEq

/-- The host list with the given elements. -/
def Term.ofList : List Term → Term
  | [] => .nil
  | t :: ts => .cons t (Term.ofList ts)

/-- The host string (a list of character codes) with the given codes. -/
def Term.string (cs : List Int) : Term :=
  Term.ofList (cs.map Term.int)

/-- The library call `enif_get_list_length`: the length of a proper list,
failure for any other term. -/
def enif_get_list_length : Term → Option Nat
  | .nil => some 0
  | .cons _ t => (enif_get_list_length t).map (· + 1)
  | _ => none

/-- The library call `enif_get_list_cell`: head and tail of a non-empty list. -/
def enif_get_list_cell : Term → Option (Term × Term)
  | .cons h t => some (h, t)
  | _ => none

/-- The copying loop of `enif_get_string`; `buf` holds the bytes stored so far. -/
def enif_get_string_loop (len : Nat) : Term → List Nat → Int × List Nat
  | .nil, buf => ((buf.length : Int) + 1, buf ++ [0])
  | .cons (.int c) t, buf =>
    if 0 ≤ c ∧ c < 256 then
      if buf.length + 1 ≥ len then (-(len : Int), buf ++ [0])
      else enif_get_string_loop len t (buf ++ [c.toNat])
    else (0, buf ++ [0])
  | _, buf => (0, buf ++ [0])

/-- The library call `enif_get_string(env, list, buf, len, ERL_NIF_LATIN1)`:
returns the number of bytes written, terminator included, and the bytes; the
negated `len` when the string was truncated for lack of room; 0 when the term
is not a list of bytes or `len` is below 1. -/
def enif_get_string (list : Term) (len : Nat) : Int × List Nat :=
  if len < 1 then (0, []) else enif_get_string_loop len list []

/-- The library call `enif_get_int`: the value of an integer term that fits a
C `int`. -/
def enif_get_int : Term → Option Int
  | .int n => if -2147483648 ≤ n ∧ n ≤ 2147483647 then some n else none
  | _ => none

/-- The source's macro `ERL_OK`. -/
def ERL_OK (t : Term) : Term := .tuple2 (.atom "ok") t

/-- The source's macro `ERL_ERROR`. -/
def ERL_ERROR (t : Term) : Term := .tuple2 (.atom "error") t

/-- The C string that starts at the beginning of a character buffer. -/
def cstr (buf : List Nat) : CString :=
  buf.takeWhile (· ≠ 0)

/-! ## `priv/hello.c`: the NIFs -/

/-- The `for` loop of `exec_proc` with `n` iterations left: `exec_args` holds
the entries filled so far; `none` is the early `return enif_make_badarg(env)`. -/
def exec_proc_loop : Nat → Term → List CString → Option (List CString)
  | 0, _, exec_args => some exec_args
  | n + 1, list, exec_args =>
    match enif_get_list_cell list with
    | none => none
    | some (head, tail) =>
      let (rc, temp) := enif_get_string head MAX_ARGUMENT_LEN
      if rc < 1 then none
      else exec_proc_loop n tail (exec_args ++ [cstr temp])

/-- The source's `exec_proc`; `argv0` is `argv[0]`, `result` the indeterminate
initial content of the local `result` of `start_proccess`. -/
def exec_proc (o : Outcomes) (result : ExecResult) (argv0 : Term) (k : Kernel) :
    Exit NifReturn :=
  match enif_get_list_length argv0 with
  | none => .returned .badarg k
  | some args_len =>
    if args_len > MAX_ARGUMENTS then .returned .badarg k
    else
      match exec_proc_loop args_len argv0 [] with
      | none => .returned .badarg k
      | some exec_args =>
        match start_proccess o result exec_args k with
        | .replaced k => .replaced k
        | .returned result k =>
          match result.status with
          | .SUCCESS =>
            .returned (.term (.tuple4 (.int 0) (.int result.pid) (.int result.pipe_in)
              (.int result.pipe_out))) k
          | _ => .returned (.term (.tuple4 (.int (-1)) (.int 0) (.int 0) (.int 0))) k

/-- The source's `read_proc`; `argv0` is `argv[0]`, `pipe_out` and `buf` the
indeterminate initial contents of the locals of those names. The binary
allocation is taken to succeed. -/
def read_proc (o : ReadRet) (clobber : Option Int) (pipe_out : Int) (buf : List Nat)
    (argv0 : Term) (k : Kernel) : Term × Kernel :=
  let pipe_out := (enif_get_int argv0).getD pipe_out
  let rd := sys_read o pipe_out buf 65535 k
  let result := rd.1
  let buf := rd.2.1
  let k := rd.2.2
  if result ≥ 0 then
    -- enif_alloc_binary(result, &bin); memcpy(bin.data, buf, result);
    let bin := buf.take result.toNat
    (ERL_OK (.binary bin), k)
  else
    let k := perror clobber "read()" k
    (ERL_ERROR (.int k.errno), k)

/-! ## Vocabulary of the statements -/

/-- The descriptor table `t` after three pipes numbered `n`, `n + 1`, `n + 2`
were created on the descriptors `r0 w0`, `r1 w1`, `r2 w2`, in this order. -/
def piped (t : FdTable) (n : Nat) (r0 w0 r1 w1 r2 w2 : Int) : FdTable :=
  fun x =>
    if x = w2 then some (.pipe_write (n + 2)) else
    if x = r2 then some (.pipe_read (n + 2)) else
    if x = w1 then some (.pipe_write (n + 1)) else
    if x = r1 then some (.pipe_read (n + 1)) else
    if x = w0 then some (.pipe_write n) else
    if x = r0 then some (.pipe_read n) else t x

/-! ## Concrete scenarios -/

/-- A process with descriptors 0, 1 and 2 open and nothing else. -/
def k_std : Kernel :=
  { fdt := fun x => if x = 0 ∨ x = 1 ∨ x = 2 then some (.inherited x.toNat) else none
    errno := 0
    npipes := 0
    trace := []
    at_exec := none }

/-- A process whose standard input is closed: only 1 and 2 are open. -/
def k_nostdin : Kernel :=
  { fdt := fun x => if x = 1 ∨ x = 2 then some (.inherited x.toNat) else none
    errno := 0
    npipes := 0
    trace := []
    at_exec := none }

/-- Every call succeeds: the pipes get descriptors 3 to 8 and `fork` returns
pid 100 (the parent's view). -/
def o_parent : Outcomes :=
  { pipe := fun i => .ok (3 + 2 * i) (4 + 2 * i)
    getfl := fun _ => ⟨2, 0⟩
    setfl := fun _ => ⟨0, 0⟩
    fork := ⟨100, 0⟩
    dup2 := fun _ => ⟨0, 0⟩
    execvp := none
    perror := none }

/-- Some content for the local `result` before it is assigned. -/
def result_garbage : ExecResult :=
  ⟨.SUCCESS, 77, 77, 77, 77⟩

/-- The program name `ls`, as the bytes of a C string. -/
def ls : CString := [108, 115]

/-- The first `pipe` call fails with `EMFILE` (24). -/
def o_pipe_fails : Outcomes :=
  { o_parent with pipe := fun _ => .fail 24 }

/-- The `fork` call fails with `EAGAIN` (11). -/
def o_fork_fails : Outcomes :=
  { o_parent with fork := ⟨-1, 11⟩ }

/-- The child's view (`fork` returns 0) in which `execvp` fails with `ENOENT` (2). -/
def o_child_exec_fails : Outcomes :=
  { o_parent with fork := ⟨0, 0⟩, execvp := some 2 }

/-- The child's view in which the first `dup2` fails with `EINTR` (4). -/
def o_child_dup_fails : Outcomes :=
  { o_parent with fork := ⟨0, 0⟩, dup2 := fun _ => ⟨-1, 4⟩ }

/-- The child's view in which every call succeeds. -/
def o_child : Outcomes :=
  { o_parent with fork := ⟨0, 0⟩ }

/-- The first pipe gets descriptors 0 and 3, the second `pipe` call fails with
`EMFILE` (24). -/
def o_second_pipe_fails : Outcomes :=
  { o_parent with pipe := fun i => if i = 0 then .ok 0 3 else .fail 24 }

/-- The `F_GETFL` call on the first descriptor fails with `EBADF` (9); every
`F_SETFL` call succeeds. -/
def o_getfl_fails : Outcomes :=
  { o_parent with getfl := fun i => if i = 0 then ⟨-1, 9⟩ else ⟨2, 0⟩ }

/-! ## Theorems -/

/-! ### What each call does to the descriptor table -/

theorem sys_close_fdt (fd : Int) (k : Kernel) :
    (sys_close fd k).2.fdt = fun x => if x = fd then none else k.fdt x := by
  funext x
  by_cases h : (k.fdt fd).isSome = true
  · simp [sys_close, Kernel.isOpen, Kernel.log, Kernel.setfd, h]
  · simp [sys_close, Kernel.isOpen, Kernel.log, Kernel.fail, h]
    split
    · next hx => subst hx; simpa using h
    · rfl

theorem sys_close_npipes (fd : Int) (k : Kernel) : (sys_close fd k).2.npipes = k.npipes := by
  unfold sys_close; simp only []; split <;> rfl

theorem sys_close_at_exec (fd : Int) (k : Kernel) : (sys_close fd k).2.at_exec = k.at_exec := by
  unfold sys_close; simp only []; split <;> rfl

theorem set_flag_fails_fst (g s : Ret) (fd : Int) (k : Kernel) :
    (set_flag_fails g s fd k).1 = decide (s.val < 0) := by
  unfold set_flag_fails set_flag sys_fcntl_setfl; simp only []; split <;> rfl

theorem set_flag_fails_fdt (g s : Ret) (fd : Int) (k : Kernel) :
    (set_flag_fails g s fd k).2.fdt = k.fdt := by
  unfold set_flag_fails set_flag sys_fcntl_setfl sys_fcntl_getfl; simp only []
  split <;> split <;> rfl

theorem set_flag_fails_npipes (g s : Ret) (fd : Int) (k : Kernel) :
    (set_flag_fails g s fd k).2.npipes = k.npipes := by
  unfold set_flag_fails set_flag sys_fcntl_setfl sys_fcntl_getfl; simp only []
  split <;> split <;> rfl

theorem set_flag_fails_at_exec (g s : Ret) (fd : Int) (k : Kernel) :
    (set_flag_fails g s fd k).2.at_exec = k.at_exec := by
  unfold set_flag_fails set_flag sys_fcntl_setfl sys_fcntl_getfl; simp only []
  split <;> split <;> rfl

theorem sys_fork_fst (o : Ret) (k : Kernel) : (sys_fork o k).1 = o.val := by
  unfold sys_fork; simp only []; split <;> rfl

theorem sys_fork_fdt (o : Ret) (k : Kernel) : (sys_fork o k).2.fdt = k.fdt := by
  unfold sys_fork; simp only []; split <;> rfl

theorem sys_fork_npipes (o : Ret) (k : Kernel) : (sys_fork o k).2.npipes = k.npipes := by
  unfold sys_fork; simp only []; split <;> rfl

theorem sys_fork_at_exec (o : Ret) (k : Kernel) : (sys_fork o k).2.at_exec = k.at_exec := by
  unfold sys_fork; simp only []; split <;> rfl

theorem sys_dup2_fst (o : Ret) (oldfd newfd : Int) (k : Kernel) :
    (sys_dup2 o oldfd newfd k).1
      = if o.val < 0 then o.val else if (k.fdt oldfd).isSome then newfd else -1 := by
  unfold sys_dup2; simp only [Kernel.isOpen, Kernel.log]; split
  · rfl
  · split <;> rfl

theorem sys_dup2_fdt (o : Ret) (oldfd newfd : Int) (k : Kernel) :
    (sys_dup2 o oldfd newfd k).2.fdt
      = if o.val < 0 then k.fdt else if (k.fdt oldfd).isSome
          then (fun x => if x = newfd then k.fdt oldfd else k.fdt x) else k.fdt := by
  unfold sys_dup2; simp only [Kernel.isOpen, Kernel.log]; split
  · rfl
  · split <;> rfl

theorem sys_dup2_at_exec (o : Ret) (oldfd newfd : Int) (k : Kernel) :
    (sys_dup2 o oldfd newfd k).2.at_exec = k.at_exec := by
  unfold sys_dup2; simp only [Kernel.isOpen, Kernel.log]; split
  · rfl
  · split <;> rfl

theorem perror_fdt (c : Option Int) (msg : String) (k : Kernel) :
    (perror c msg k).fdt = k.fdt := by
  unfold perror; cases c <;> rfl

theorem perror_at_exec (c : Option Int) (msg : String) (k : Kernel) :
    (perror c msg k).at_exec = k.at_exec := by
  unfold perror; cases c <;> rfl

theorem or_chain_cons {σ : Type} (f : σ → Bool × σ) (fs : List (σ → Bool × σ)) (s : σ) :
    or_chain (f :: fs) s = if (f s).1 then (true, (f s).2) else or_chain fs (f s).2 := rfl

theorem or_chain_nil {σ : Type} (s : σ) : or_chain ([] : List (σ → Bool × σ)) s = (false, s) := rfl

theorem piped_lookup (t : FdTable) (n : Nat) (r0 w0 r1 w1 r2 w2 : Int)
    (hnd : [r0, w0, r1, w1, r2, w2].Nodup) :
    piped t n r0 w0 r1 w1 r2 w2 r0 = some (.pipe_read n) ∧
    piped t n r0 w0 r1 w1 r2 w2 w0 = some (.pipe_write n) ∧
    piped t n r0 w0 r1 w1 r2 w2 r1 = some (.pipe_read (n + 1)) ∧
    piped t n r0 w0 r1 w1 r2 w2 w1 = some (.pipe_write (n + 1)) ∧
    piped t n r0 w0 r1 w1 r2 w2 r2 = some (.pipe_read (n + 2)) ∧
    piped t n r0 w0 r1 w1 r2 w2 w2 = some (.pipe_write (n + 2)) := by
  simp only [List.nodup_cons, List.mem_cons, List.mem_singleton, not_or, List.not_mem_nil,
    not_false_eq_true, List.nodup_nil, and_true] at hnd
  obtain ⟨⟨a1, a2, a3, a4, a5⟩, ⟨b1, b2, b3, b4⟩, ⟨c1, c2, c3⟩, ⟨d1, d2⟩, e1⟩ := hnd
  simp [piped, a1, a2, a3, a4, a5, b1, b2, b3, b4, c1, c2, c3, d1, d2, e1]

theorem piped_other (t : FdTable) (n : Nat) (r0 w0 r1 w1 r2 w2 x : Int)
    (hx : x ∉ [r0, w0, r1, w1, r2, w2]) :
    piped t n r0 w0 r1 w1 r2 w2 x = t x := by
  simp only [List.mem_cons, List.mem_singleton, not_or, List.not_mem_nil,
    not_false_eq_true, and_true] at hx
  obtain ⟨a1, a2, a3, a4, a5, a6⟩ := hx
  simp [piped, a1, a2, a3, a4, a5, a6]

/-- The launch up to `fork`: when the three `pipe` calls succeed and no flag
write fails, `start_proccess` reaches the `switch` with `pipes` filled in and
with a descriptor table that holds the six new descriptors. -/
theorem start_proccess_reaches_fork (o : Outcomes) (result : ExecResult)
    (args : List CString) (k : Kernel) (r0 w0 r1 w1 r2 w2 : Int)
    (h0 : o.pipe 0 = .ok r0 w0) (h1 : o.pipe 1 = .ok r1 w1) (h2 : o.pipe 2 = .ok r2 w2)
    (hs : ∀ j, j < 6 → 0 ≤ (o.setfl j).val) :
    ∃ (pipes : Pipes) (kf : Kernel),
      (pipes 0 0 = r0 ∧ pipes 0 1 = w0 ∧ pipes 1 0 = r1 ∧ pipes 1 1 = w1 ∧
        pipes 2 0 = r2 ∧ pipes 2 1 = w2) ∧
      kf.fdt = piped k.fdt k.npipes r0 w0 r1 w1 r2 w2 ∧
      kf.at_exec = k.at_exec ∧
      start_proccess o result args k =
        if o.fork.val = -1 then RETURN_ERROR .FORK_ERROR result pipes kf
        else if o.fork.val = 0 then start_proccess_case_0 o result args pipes o.fork.val kf
        else start_proccess_default result pipes o.fork.val kf := by
  have s0 := not_lt.mpr (hs 0 (by decide))
  have s1 := not_lt.mpr (hs 1 (by decide))
  have s2 := not_lt.mpr (hs 2 (by decide))
  have s3 := not_lt.mpr (hs 3 (by decide))
  have s4 := not_lt.mpr (hs 4 (by decide))
  have s5 := not_lt.mpr (hs 5 (by decide))
  refine ⟨(or_chain [pipe_fails (o.pipe 0) STDIN_FILENO, pipe_fails (o.pipe 1) STDOUT_FILENO,
      pipe_fails (o.pipe 2) STDERR_FILENO] (fun _ _ => 0, k)).2.1,
    (sys_fork o.fork (or_chain
      [set_flag_fails (o.getfl 0) (o.setfl 0) r0, set_flag_fails (o.getfl 1) (o.setfl 1) w0,
       set_flag_fails (o.getfl 2) (o.setfl 2) r1, set_flag_fails (o.getfl 3) (o.setfl 3) w1,
       set_flag_fails (o.getfl 4) (o.setfl 4) r2, set_flag_fails (o.getfl 5) (o.setfl 5) w2]
      (or_chain [pipe_fails (o.pipe 0) STDIN_FILENO, pipe_fails (o.pipe 1) STDOUT_FILENO,
        pipe_fails (o.pipe 2) STDERR_FILENO] (fun _ _ => 0, k)).2.2).2).2, ?_, ?_, ?_, ?_⟩
  · simp [or_chain_cons, or_chain_nil, pipe_fails, sys_pipe, h0, h1, h2, Pipes.set,
      STDIN_FILENO, STDOUT_FILENO, STDERR_FILENO, PIPE_READ, PIPE_WRITE]
  · simp [or_chain_cons, or_chain_nil, pipe_fails, sys_pipe, h0, h1, h2,
      set_flag_fails_fst, s0, s1, s2, s3, s4, s5, sys_fork_fdt, set_flag_fails_fdt,
      Kernel.setfd, Kernel.log]
    rfl
  · simp [or_chain_cons, or_chain_nil, pipe_fails, sys_pipe, h0, h1, h2,
      set_flag_fails_fst, s0, s1, s2, s3, s4, s5, sys_fork_at_exec, set_flag_fails_at_exec,
      Kernel.setfd, Kernel.log]
  · simp [start_proccess, or_chain_cons, or_chain_nil, pipe_fails, sys_pipe, h0, h1, h2,
      set_flag_fails_fst, sys_fork_fst, s0, s1, s2, s3, s4, s5, Pipes.set,
      STDIN_FILENO, STDOUT_FILENO, STDERR_FILENO, PIPE_READ, PIPE_WRITE]

/-- The child's setup: with the two pipe ends to be duplicated open, both
`dup2` calls succeeding and the six descriptors all above 2, `execvp` is
entered with 0 and 1 referring to what those two ends referred to, 2 as it
was, and the six descriptors closed. -/
theorem case_0_at_exec (o : Outcomes) (result : ExecResult) (args : List CString)
    (pipes : Pipes) (pid : Int) (k : Kernel) (r0 w0 r1 w1 r2 w2 : Int)
    (e00 : pipes 0 0 = r0) (e01 : pipes 0 1 = w0) (e10 : pipes 1 0 = r1)
    (e11 : pipes 1 1 = w1) (e20 : pipes 2 0 = r2) (e21 : pipes 2 1 = w2)
    (hr : (k.fdt r0).isSome = true) (hw : (k.fdt w1).isSome = true)
    (hd : ∀ j, j < 2 → 0 ≤ (o.dup2 j).val)
    (hgt : ∀ x ∈ [r0, w0, r1, w1, r2, w2], 2 < x) :
    ∃ t, (start_proccess_case_0 o result args pipes pid k).state.at_exec = some t ∧
      t 0 = k.fdt r0 ∧ t 1 = k.fdt w1 ∧ t 2 = k.fdt 2 ∧
      t r0 = none ∧ t w0 = none ∧ t r1 = none ∧ t w1 = none ∧ t r2 = none ∧ t w2 = none := by
  have q0 := not_lt.mpr (hd 0 (by decide))
  have q1 := not_lt.mpr (hd 1 (by decide))
  have g0 := hgt r0 (by simp)
  have g1 := hgt w0 (by simp)
  have g2 := hgt r1 (by simp)
  have g3 := hgt w1 (by simp)
  have g4 := hgt r2 (by simp)
  have g5 := hgt w2 (by simp)
  have n0 : r0 ≠ 0 := by omega
  have n1 : w0 ≠ 0 := by omega
  have n2 : r1 ≠ 0 := by omega
  have n3 : w1 ≠ 0 := by omega
  have n4 : r2 ≠ 0 := by omega
  have n5 : w2 ≠ 0 := by omega
  have m0 : r0 ≠ 1 := by omega
  have m3 : w1 ≠ 1 := by omega
  have hin : (sys_dup2 (o.dup2 0) r0 0 (sys_close 1 (sys_close 0 k).2).2).1 = 0 := by
    simp [sys_dup2_fst, sys_close_fdt, q0, n0, m0, hr]
  have hin2 : (sys_dup2 (o.dup2 0) r0 0 (sys_close 1 (sys_close 0 k).2).2).2.fdt
      = fun x => if x = 0 then k.fdt r0 else if x = 1 then none else k.fdt x := by
    simp [sys_dup2_fdt, sys_close_fdt, q0, n0, m0, hr]
    funext x; split_ifs <;> rfl
  have hout : (sys_dup2 (o.dup2 1) w1 1
      (sys_dup2 (o.dup2 0) r0 0 (sys_close 1 (sys_close 0 k).2).2).2).1 = 1 := by
    simp [sys_dup2_fst, hin2, q1, n3, m3, hw]
  have hout2 : (sys_dup2 (o.dup2 1) w1 1
      (sys_dup2 (o.dup2 0) r0 0 (sys_close 1 (sys_close 0 k).2).2).2).2.fdt
      = fun x => if x = 1 then k.fdt w1 else if x = 0 then k.fdt r0 else k.fdt x := by
    rw [sys_dup2_fdt]
    simp [hin2, q1, n3, m3, hw]
    funext x; split_ifs <;> rfl
  cases hx : o.execvp <;>
  simp [start_proccess_case_0, start_proccess_default, sys_execvp, hx, close_all,
    e00, e01, e10, e11, e20, e21, STDIN_FILENO, STDOUT_FILENO, STDERR_FILENO, PIPE_READ,
    PIPE_WRITE, hin, hout, hout2, Exit.state, n0, n1, n2, n3, n4, n5, sys_close_fdt,
    sys_close_at_exec, perror_at_exec, Kernel.fail, Kernel.log] <;>
  refine ⟨?_, ?_, ?_⟩ <;> simp (disch := omega) only [if_neg]

/-! ### Every launch attempt shows in the trace -/

theorem sys_close_trace (fd : Int) (k : Kernel) :
    (sys_close fd k).2.trace = k.trace ++ [.close fd] := by
  unfold sys_close; simp only []; split <;> rfl

theorem sys_fork_trace (o : Ret) (k : Kernel) :
    (sys_fork o k).2.trace = k.trace ++ [.fork] := by
  unfold sys_fork; simp only []; split <;> rfl

theorem sys_dup2_trace (o : Ret) (oldfd newfd : Int) (k : Kernel) :
    (sys_dup2 o oldfd newfd k).2.trace = k.trace ++ [.dup2 oldfd newfd] := by
  unfold sys_dup2; simp only [Kernel.isOpen, Kernel.log]; split
  · rfl
  · split <;> rfl

theorem perror_trace (c : Option Int) (msg : String) (k : Kernel) :
    (perror c msg k).trace = k.trace ++ [.perror msg] := by
  unfold perror; cases c <;> rfl

theorem pipe_fails_trace (o : PipeRet) (i : Int) (s : Pipes × Kernel) :
    (pipe_fails o i s).2.2.trace = s.2.trace ++ [.pipe] := by
  cases o <;> rfl

theorem set_flag_fails_trace_length (g s : Ret) (fd : Int) (k : Kernel) :
    (set_flag_fails g s fd k).2.trace.length = k.trace.length + 2 := by
  unfold set_flag_fails set_flag sys_fcntl_setfl sys_fcntl_getfl; simp only []
  split <;> split <;> simp [Kernel.log, Kernel.fail]

/-- A chain of operands none of which shortens the trace does not shorten it. -/
theorem or_chain_trace_length {σ : Type} (m : σ → Nat) (fs : List (σ → Bool × σ))
    (h : ∀ f ∈ fs, ∀ s, m s ≤ m (f s).2) :
    ∀ s, m s ≤ m (or_chain fs s).2 := by
  induction fs with
  | nil => intro s; exact le_refl _
  | cons f fs ih =>
    intro s
    rw [or_chain_cons]
    split
    · exact h f (List.mem_cons_self _ _) s
    · exact le_trans (h f (List.mem_cons_self _ _) s)
        (ih (fun g hg => h g (List.mem_cons_of_mem _ hg)) _)

theorem close_all_trace_length (pipes : Pipes) (k : Kernel) :
    k.trace.length ≤ (close_all pipes k).trace.length := by
  simp only [close_all, List.foldl]
  repeat' split
  all_goals try simp only [sys_close_trace, List.length_append, List.length_singleton]
  all_goals omega

theorem RETURN_ERROR_trace_length (status : exec_status) (result : ExecResult)
    (pipes : Pipes) (k : Kernel) :
    k.trace.length ≤ (RETURN_ERROR status result pipes k).state.trace.length :=
  close_all_trace_length pipes k

theorem start_proccess_default_trace_length (result : ExecResult) (pipes : Pipes)
    (pid : Int) (k : Kernel) :
    k.trace.length ≤ (start_proccess_default result pipes pid k).state.trace.length := by
  simp [start_proccess_default, Exit.state, sys_close_trace]

theorem start_proccess_case_0_trace_length (o : Outcomes) (result : ExecResult)
    (args : List CString) (pipes : Pipes) (pid : Int) (k : Kernel) :
    k.trace.length ≤ (start_proccess_case_0 o result args pipes pid k).state.trace.length := by
  unfold start_proccess_case_0
  simp only []
  split
  · refine le_trans ?_ (RETURN_ERROR_trace_length _ _ _ _)
    simp [sys_dup2_trace, sys_close_trace]
  · split
    · refine le_trans ?_ (RETURN_ERROR_trace_length _ _ _ _)
      simp [sys_dup2_trace, sys_close_trace]
    · have hc := close_all_trace_length pipes
        (sys_dup2 (o.dup2 1) (pipes STDOUT_FILENO PIPE_WRITE) STDOUT_FILENO
          (sys_dup2 (o.dup2 0) (pipes STDIN_FILENO PIPE_READ) STDIN_FILENO
            (sys_close STDOUT_FILENO (sys_close STDIN_FILENO k).2).2).2).2
      simp only [sys_dup2_trace, sys_close_trace, List.length_append,
        List.length_singleton] at hc
      cases hx : o.execvp with
      | none =>
        simp only [sys_execvp, Exit.state, Kernel.log, List.length_append,
          List.length_singleton]
        omega
      | some e =>
        simp only [sys_execvp]
        refine le_trans ?_ (start_proccess_default_trace_length _ _ _ _)
        simp only [perror_trace, Kernel.fail, Kernel.log, List.length_append,
          List.length_singleton]
        omega

/-- Every call of `start_proccess` makes at least one kernel call: its first
step is a `pipe` call, and nothing removes entries from the trace. -/
theorem start_proccess_makes_calls (o : Outcomes) (result : ExecResult)
    (args : List CString) (k : Kernel) :
    k.trace.length < (start_proccess o result args k).state.trace.length := by
  have hc : k.trace.length < (or_chain
      [pipe_fails (o.pipe 0) STDIN_FILENO, pipe_fails (o.pipe 1) STDOUT_FILENO,
       pipe_fails (o.pipe 2) STDERR_FILENO] (fun _ _ => 0, k)).2.2.trace.length := by
    rw [or_chain_cons]
    split
    · simp [pipe_fails_trace]
    · refine lt_of_lt_of_le ?_
        (or_chain_trace_length (fun s : Pipes × Kernel => s.2.trace.length) _ ?_ _)
      · simp [pipe_fails_trace]
      · intro f hf s
        simp only [List.mem_cons, List.mem_singleton, List.not_mem_nil, or_false] at hf
        rcases hf with rfl | rfl <;> simp [pipe_fails_trace]
  have hfl : ∀ (a b c d e f : Int) (k1 : Kernel), k1.trace.length ≤ (or_chain
      [set_flag_fails (o.getfl 0) (o.setfl 0) a, set_flag_fails (o.getfl 1) (o.setfl 1) b,
       set_flag_fails (o.getfl 2) (o.setfl 2) c, set_flag_fails (o.getfl 3) (o.setfl 3) d,
       set_flag_fails (o.getfl 4) (o.setfl 4) e, set_flag_fails (o.getfl 5) (o.setfl 5) f]
      k1).2.trace.length := by
    intro a b c d e f k1
    refine or_chain_trace_length (fun s : Kernel => s.trace.length) _ ?_ k1
    intro g hg s
    simp only [List.mem_cons, List.mem_singleton, List.not_mem_nil, or_false] at hg
    rcases hg with rfl | rfl | rfl | rfl | rfl | rfl <;>
      simp [set_flag_fails_trace_length]
  have hfk : ∀ k1 : Kernel, k1.trace.length ≤ (sys_fork o.fork k1).2.trace.length := by
    intro k1; simp [sys_fork_trace]
  unfold start_proccess
  simp only []
  split
  · exact lt_of_lt_of_le hc (RETURN_ERROR_trace_length _ _ _ _)
  · split
    · exact lt_of_lt_of_le (lt_of_lt_of_le hc (hfl _ _ _ _ _ _ _))
        (RETURN_ERROR_trace_length _ _ _ _)
    · split
      · exact lt_of_lt_of_le (lt_of_lt_of_le (lt_of_lt_of_le hc (hfl _ _ _ _ _ _ _)) (hfk _))
          (RETURN_ERROR_trace_length _ _ _ _)
      · split
        · exact lt_of_lt_of_le
            (lt_of_lt_of_le (lt_of_lt_of_le hc (hfl _ _ _ _ _ _ _)) (hfk _))
            (start_proccess_case_0_trace_length _ _ _ _ _ _)
        · exact lt_of_lt_of_le
            (lt_of_lt_of_le (lt_of_lt_of_le hc (hfl _ _ _ _ _ _ _)) (hfk _))
            (start_proccess_default_trace_length _ _ _ _)

/-! ### Argument validation -/

theorem enif_get_list_length_ofList (ts : List Term) :
    enif_get_list_length (Term.ofList ts) = some ts.length := by
  induction ts with
  | nil => rfl
  | cons t ts ih => simp [Term.ofList, enif_get_list_length, ih]

/-- A list of character codes that does not fit the room left in the buffer
is not accepted by the copying loop: the result is 0 or the negated size. -/
theorem enif_get_string_loop_too_long (len : Nat) (cs : List Int) :
    ∀ buf : List Nat, buf.length < len → len ≤ buf.length + cs.length →
      (enif_get_string_loop len (Term.string cs) buf).1 ≤ 0 := by
  induction cs with
  | nil =>
    intro buf h1 h2
    simp at h2
    omega
  | cons c cs ih =>
    intro buf h1 h2
    simp only [Term.string, List.map_cons, Term.ofList, enif_get_string_loop]
    split
    · split
      · simp
      · next hlen =>
        refine ih (buf ++ [c.toNat]) ?_ ?_
        · simp at hlen ⊢; omega
        · simp at h2 ⊢; omega
    · simp

theorem enif_get_string_too_long (cs : List Int) (h : MAX_ARGUMENT_LEN < cs.length) :
    (enif_get_string (Term.string cs) MAX_ARGUMENT_LEN).1 < 1 := by
  have := enif_get_string_loop_too_long MAX_ARGUMENT_LEN cs [] (by decide)
    (by simp only [List.length_nil]; omega)
  simp only [enif_get_string, MAX_ARGUMENT_LEN] at this ⊢
  simp only [show ¬ (1024 < 1) by decide, if_false]
  omega

/-- The loop of `exec_proc` gives up as soon as one entry is not accepted. -/
theorem exec_proc_loop_rejects (ts : List Term) :
    ∀ acc : List CString,
      (∃ t ∈ ts, (enif_get_string t MAX_ARGUMENT_LEN).1 < 1) →
      exec_proc_loop ts.length (Term.ofList ts) acc = none := by
  induction ts with
  | nil => intro acc h; simp at h
  | cons t ts ih =>
    intro acc h
    simp only [List.length_cons, Term.ofList, exec_proc_loop, enif_get_list_cell]
    split
    · rfl
    · next hrc =>
      apply ih
      obtain ⟨u, hu, hlt⟩ := h
      rcases List.mem_cons.mp hu with rfl | hu
      · exact absurd hlt hrc
      · exact ⟨u, hu, hlt⟩

/-! ### The claims -/


/-- Claim C1, which the code does not meet: a launch that fails in `pipe` with
errno 24 and a launch that fails in `fork` with errno 11 end `start_proccess`
with different status kinds and different error codes, yet `exec_proc` hands
the host the same tuple, -1 followed by three zeros, for both. -/
theorem exec_proc_failure_hides_status_and_errno :
    ((start_proccess o_pipe_fails result_garbage [ls] k_std).val?.map
        fun r => (r.status, r.err)) = some (.PIPE_CREATE_ERROR, 24) ∧
    ((start_proccess o_fork_fails result_garbage [ls] k_std).val?.map
        fun r => (r.status, r.err)) = some (.FORK_ERROR, 11) ∧
    (exec_proc o_pipe_fails result_garbage (Term.ofList [Term.string [108, 115]]) k_std).val?
      = some (.term (.tuple4 (.int (-1)) (.int 0) (.int 0) (.int 0))) ∧
    (exec_proc o_fork_fails result_garbage (Term.ofList [Term.string [108, 115]]) k_std).val?
      = some (.term (.tuple4 (.int (-1)) (.int 0) (.int 0) (.int 0))) := by
  decide

/-- Claim C2, which the code does not meet: in the child (fork returned 0),
when `execvp` fails the call falls through into the parent's statements and
returns a SUCCESS result with pid 0, and when the first `dup2` fails the call
returns a PIPE_DUP_ERROR result; in both cases the child returns to its caller
instead of terminating. -/
theorem child_returns_through_start_proccess :
    (start_proccess o_child_exec_fails result_garbage [ls] k_std).val?
      = some ⟨.SUCCESS, 77, 0, 4, 5⟩ ∧
    (start_proccess o_child_dup_fails result_garbage [ls] k_std).val?
      = some ⟨.PIPE_DUP_ERROR, 4, 77, 77, 77⟩ := by
  decide

/-- Claim C3, which the code does not meet: in a process whose descriptor 0 is
free, the first pipe gets descriptors 0 and 3 and the second `pipe` call fails;
`start_proccess` returns PIPE_CREATE_ERROR having closed 3 but not 0, so the
read end of the pipe it created is still open as descriptor 0. -/
theorem close_all_skips_descriptor_zero :
    k_nostdin.fdt 0 = none ∧
    ((start_proccess o_second_pipe_fails result_garbage [ls] k_nostdin).val?.map
        fun r => r.status) = some .PIPE_CREATE_ERROR ∧
    (start_proccess o_second_pipe_fails result_garbage [ls] k_nostdin).state.fdt 3 = none ∧
    (start_proccess o_second_pipe_fails result_garbage [ls] k_nostdin).state.fdt 0
      = some (.pipe_read 0) := by
  decide

/-- Claim C5, which the code does not meet: for the empty argument list
`exec_proc` does not report badarg; it invokes `start_proccess` with the empty
vector, pipes are created and the process is forked, the parent gets a success
tuple, and the child calls `execvp` with a NULL program name. -/
theorem exec_proc_empty_list_launches :
    (exec_proc o_parent result_garbage .nil k_std).val?
      = some (.term (.tuple4 (.int 0) (.int 100) (.int 4) (.int 5))) ∧
    Call.pipe ∈ (exec_proc o_parent result_garbage .nil k_std).state.trace ∧
    Call.fork ∈ (exec_proc o_parent result_garbage .nil k_std).state.trace ∧
    Call.execvp none [] ∈ (exec_proc o_child result_garbage .nil k_std).state.trace := by
  decide

/-- Claim C10, which the code does not meet: when reading the flags of the
first descriptor fails (returns -1) and every flag write succeeds,
`start_proccess` does not return PIPE_FLAG_ERROR: it goes on to fork and
returns SUCCESS. -/
theorem getfl_failure_goes_unnoticed :
    (start_proccess o_getfl_fails result_garbage [ls] k_std).val?
      = some ⟨.SUCCESS, 77, 100, 4, 5⟩ ∧
    Call.fork ∈ (start_proccess o_getfl_fails result_garbage [ls] k_std).state.trace := by
  decide

/-- Claim C4: for every argument list with more than 20 entries, or with an
entry (a string, or a binary) of more than 1024 bytes, `exec_proc` returns
badarg and leaves the process exactly as it was: no kernel call was made, so no
pipe was created and no process was forked, and `start_proccess`, which from
the same state always makes at least one call, was not invoked. -/
theorem exec_proc_rejects_oversized (o : Outcomes) (result : ExecResult) (k : Kernel)
    (ts : List Term)
    (h : MAX_ARGUMENTS < ts.length ∨
      (∃ cs : List Int, Term.string cs ∈ ts ∧ MAX_ARGUMENT_LEN < cs.length) ∨
      (∃ bs : List Nat, Term.binary bs ∈ ts ∧ MAX_ARGUMENT_LEN < bs.length)) :
    exec_proc o result (Term.ofList ts) k = .returned .badarg k ∧
    ∀ args : List CString,
      (exec_proc o result (Term.ofList ts) k).state.trace.length
        < (start_proccess o result args k).state.trace.length := by
  have key : exec_proc o result (Term.ofList ts) k = .returned .badarg k := by
    unfold exec_proc
    rw [enif_get_list_length_ofList]
    simp only []
    by_cases hlen : ts.length > MAX_ARGUMENTS
    · simp [hlen]
    · rcases h with h | ⟨cs, hmem, hcs⟩ | ⟨bs, hmem, _⟩
      · exact absurd h hlen
      · rw [if_neg hlen,
          exec_proc_loop_rejects ts [] ⟨_, hmem, enif_get_string_too_long cs hcs⟩]
      · rw [if_neg hlen, exec_proc_loop_rejects ts [] ⟨_, hmem, by
          simp [enif_get_string, enif_get_string_loop, MAX_ARGUMENT_LEN]⟩]
  refine ⟨key, fun args => ?_⟩
  rw [key]
  exact start_proccess_makes_calls o result args k

/-- Claim C4 at a concrete list of 21 entries. -/
theorem exec_proc_rejects_oversized_witness :
    (MAX_ARGUMENTS < (List.replicate 21 (Term.string [108, 115])).length ∨
      (∃ cs : List Int, Term.string cs ∈ List.replicate 21 (Term.string [108, 115]) ∧
        MAX_ARGUMENT_LEN < cs.length) ∨
      (∃ bs : List Nat, Term.binary bs ∈ List.replicate 21 (Term.string [108, 115]) ∧
        MAX_ARGUMENT_LEN < bs.length)) ∧
    (exec_proc o_parent result_garbage
        (Term.ofList (List.replicate 21 (Term.string [108, 115]))) k_std
        = .returned .badarg k_std ∧
      ∀ args : List CString,
        (exec_proc o_parent result_garbage
          (Term.ofList (List.replicate 21 (Term.string [108, 115]))) k_std).state.trace.length
          < (start_proccess o_parent result_garbage args k_std).state.trace.length) :=
  ⟨Or.inl (by decide),
   exec_proc_rejects_oversized o_parent result_garbage k_std
    (List.replicate 21 (Term.string [108, 115])) (Or.inl (by decide))⟩

/-- The terms `read_proc` returns, for every descriptor and every answer of the
one `read` call it makes (for 65535 bytes). When the call returns `n >= 0` the
result is the pair of the atom `ok` and the binary of exactly the `n` bytes
read, in order (the empty binary for `n = 0`). When it returns a negative value
the result is the pair of the atom `error` and the value `errno` has after the
`perror` call that follows the read: the error code of the read when `perror`
leaves `errno` alone, and what `perror` left otherwise. A pair that starts with
`ok` is never a pair that starts with `error`. -/
theorem read_proc_shapes (o : ReadRet) (clobber : Option Int) (pipe_out : Int)
    (buf : List Nat) (argv0 : Term) (k : Kernel) :
    (sys_read o ((enif_get_int argv0).getD pipe_out) buf 65535 k).1
      = (match o with
         | .ok data => ((data.take 65535).length : Int)
         | .fail _ => -1) ∧
    (read_proc o clobber pipe_out buf argv0 k).1
      = (match o with
         | .ok data => .tuple2 (.atom "ok") (.binary (data.take 65535))
         | .fail e =>
           match clobber with
           | none => .tuple2 (.atom "error") (.int e)
           | some c => .tuple2 (.atom "error") (.int c)) ∧
    (read_proc o clobber pipe_out buf argv0 k).2.trace
      = (match o with
         | .ok _ => k.trace ++ [.read ((enif_get_int argv0).getD pipe_out) 65535]
         | .fail _ => k.trace ++ [.read ((enif_get_int argv0).getD pipe_out) 65535,
             .perror "read()"]) ∧
    (read_proc (.ok []) clobber pipe_out buf argv0 k).1
      = .tuple2 (.atom "ok") (.binary []) ∧
    ∀ a b : Term, Term.tuple2 (.atom "ok") a ≠ Term.tuple2 (.atom "error") b := by
  refine ⟨?_, ?_, ?_, ?_, ?_⟩
  · cases o <;> simp [sys_read]
  · cases o with
    | fail e =>
      cases clobber <;>
        simp [read_proc, sys_read, perror, Kernel.fail, Kernel.log, ERL_ERROR]
    | ok data =>
      simp only [read_proc, sys_read, ERL_OK]
      rw [if_pos (Int.natCast_nonneg _)]
      simp only [Int.toNat_ofNat, List.take_left]
  · cases o with
    | fail e => cases clobber <;> simp [read_proc, sys_read, perror, Kernel.fail, Kernel.log]
    | ok data => simp [read_proc, sys_read, Kernel.log]
  · simp [read_proc, sys_read, ERL_OK]
  · intro a b; simp

/-- Claim C7, which the code does not meet in its failure half: `read_proc`
calls `perror` between the failed `read` and the use of `errno`. When the read
on descriptor 5 fails with error code 11 and `perror` leaves `errno` at 22, the
host gets the pair of `error` and 22, not the error code of the read; only when
`perror` leaves `errno` alone does it get 11. The success half is met: three
bytes read give the pair of `ok` and those three bytes, and a read of zero
bytes gives the pair of `ok` and the empty binary. -/
theorem read_proc_reports_errno_left_by_perror :
    (read_proc (.fail 11) (some 22) 0 [] (.int 5) k_std).1
      = .tuple2 (.atom "error") (.int 22) ∧
    (read_proc (.fail 11) (some 22) 0 [] (.int 5) k_std).2.trace
      = [.read 5 65535, .perror "read()"] ∧
    (read_proc (.fail 11) none 0 [] (.int 5) k_std).1
      = .tuple2 (.atom "error") (.int 11) ∧
    (read_proc (.ok [104, 105, 10]) none 0 [] (.int 5) k_std).1
      = .tuple2 (.atom "ok") (.binary [104, 105, 10]) ∧
    (read_proc (.ok []) none 0 [] (.int 5) k_std).1
      = .tuple2 (.atom "ok") (.binary []) := by
  decide

/-- Claim C6: in the parent branch (three pipes created on pairwise distinct
descriptors, no flag write failed, `fork` returned a pid `p > 0`),
`start_proccess` returns SUCCESS with `pid = p`, `pipe_in` the write end of the
STDIN pipe and `pipe_out` the read end of the STDOUT pipe; on return the STDIN
read end and the STDOUT write end are closed, and `pipe_in` and `pipe_out` are
distinct and still open on the pipe ends they were created for. -/
theorem start_proccess_parent_result (o : Outcomes) (result : ExecResult)
    (args : List CString) (k : Kernel) (r0 w0 r1 w1 r2 w2 p : Int)
    (h0 : o.pipe 0 = .ok r0 w0) (h1 : o.pipe 1 = .ok r1 w1) (h2 : o.pipe 2 = .ok r2 w2)
    (hs : ∀ j, j < 6 → 0 ≤ (o.setfl j).val)
    (hf : o.fork.val = p) (hp : 0 < p)
    (hnd : [r0, w0, r1, w1, r2, w2].Nodup) :
    (start_proccess o result args k).val? = some ⟨.SUCCESS, result.err, p, w0, r1⟩ ∧
    (start_proccess o result args k).state.fdt r0 = none ∧
    (start_proccess o result args k).state.fdt w1 = none ∧
    w0 ≠ r1 ∧
    (start_proccess o result args k).state.fdt w0 = some (.pipe_write k.npipes) ∧
    (start_proccess o result args k).state.fdt r1 = some (.pipe_read (k.npipes + 1)) := by
  obtain ⟨pipes, kf, ⟨e00, e01, e10, e11, _, _⟩, hfdt, _, heq⟩ :=
    start_proccess_reaches_fork o result args k r0 w0 r1 w1 r2 w2 h0 h1 h2 hs
  have hp1 : ¬ p = -1 := by omega
  have hp0 : ¬ p = 0 := by omega
  obtain ⟨l0, l1, l2, l3, l4, l5⟩ := piped_lookup k.fdt k.npipes r0 w0 r1 w1 r2 w2 hnd
  simp only [List.nodup_cons, List.mem_cons, List.mem_singleton, not_or, List.not_mem_nil,
    not_false_eq_true, List.nodup_nil, and_true] at hnd
  obtain ⟨⟨a1, a2, a3, a4, a5⟩, ⟨b1, b2, b3, b4⟩, ⟨c1, c2, c3⟩, ⟨d1, d2⟩, e1⟩ := hnd
  rw [heq]
  simp only [hf, hp1, hp0, if_false, start_proccess_default, Exit.val?, Exit.state,
    sys_close_fdt, hfdt, e00, e01, e10, e11, STDIN_FILENO, STDOUT_FILENO, PIPE_READ,
    PIPE_WRITE]
  refine ⟨trivial, ?_, ?_, b1, ?_, ?_⟩
  · simp
  · simp
  · simp [b2, a1, Ne.symm a1, l1]
  · simp [c1, a2, Ne.symm a2, l2]

/-- Claim C8: in the parent branch of a successful `start_proccess`, both ends
of the STDERR pipe are still open on return, and neither is `pipe_in` or
`pipe_out` of the result. -/
theorem start_proccess_parent_keeps_stderr_pipe (o : Outcomes) (result : ExecResult)
    (args : List CString) (k : Kernel) (r0 w0 r1 w1 r2 w2 p : Int)
    (h0 : o.pipe 0 = .ok r0 w0) (h1 : o.pipe 1 = .ok r1 w1) (h2 : o.pipe 2 = .ok r2 w2)
    (hs : ∀ j, j < 6 → 0 ≤ (o.setfl j).val)
    (hf : o.fork.val = p) (hp : 0 < p)
    (hnd : [r0, w0, r1, w1, r2, w2].Nodup) :
    ∃ res, (start_proccess o result args k).val? = some res ∧
      res.status = .SUCCESS ∧
      (start_proccess o result args k).state.fdt r2 = some (.pipe_read (k.npipes + 2)) ∧
      (start_proccess o result args k).state.fdt w2 = some (.pipe_write (k.npipes + 2)) ∧
      r2 ≠ res.pipe_in ∧ r2 ≠ res.pipe_out ∧ w2 ≠ res.pipe_in ∧ w2 ≠ res.pipe_out := by
  obtain ⟨pipes, kf, ⟨e00, e01, e10, e11, _, _⟩, hfdt, _, heq⟩ :=
    start_proccess_reaches_fork o result args k r0 w0 r1 w1 r2 w2 h0 h1 h2 hs
  have hp1 : ¬ p = -1 := by omega
  have hp0 : ¬ p = 0 := by omega
  obtain ⟨l0, l1, l2, l3, l4, l5⟩ := piped_lookup k.fdt k.npipes r0 w0 r1 w1 r2 w2 hnd
  simp only [List.nodup_cons, List.mem_cons, List.mem_singleton, not_or, List.not_mem_nil,
    not_false_eq_true, List.nodup_nil, and_true] at hnd
  obtain ⟨⟨a1, a2, a3, a4, a5⟩, ⟨b1, b2, b3, b4⟩, ⟨c1, c2, c3⟩, ⟨d1, d2⟩, e1⟩ := hnd
  refine ⟨⟨.SUCCESS, result.err, p, w0, r1⟩, ?_, rfl, ?_, ?_, Ne.symm b3, Ne.symm c2,
    Ne.symm b4, Ne.symm c3⟩ <;> rw [heq] <;>
  simp only [hf, hp1, hp0, if_false, start_proccess_default, Exit.val?, Exit.state,
    sys_close_fdt, hfdt, e00, e01, e10, e11, STDIN_FILENO, STDOUT_FILENO, PIPE_READ,
    PIPE_WRITE]
  · simp [Ne.symm d1, Ne.symm a4, l4]
  · simp [Ne.symm d2, Ne.symm a5, l5]

/-- Claim C9: in the child branch (`fork` returned 0), when the six pipe
descriptors are pairwise distinct and all greater than 2 and both `dup2` calls
succeed, `execvp` is entered with descriptor 0 on the read end of the STDIN
pipe, descriptor 1 on the write end of the STDOUT pipe, descriptor 2 as it was
before the call, and none of the six pipe descriptor numbers open. -/
theorem start_proccess_child_descriptors (o : Outcomes) (result : ExecResult)
    (args : List CString) (k : Kernel) (r0 w0 r1 w1 r2 w2 : Int)
    (h0 : o.pipe 0 = .ok r0 w0) (h1 : o.pipe 1 = .ok r1 w1) (h2 : o.pipe 2 = .ok r2 w2)
    (hs : ∀ j, j < 6 → 0 ≤ (o.setfl j).val)
    (hf : o.fork.val = 0)
    (hd : ∀ j, j < 2 → 0 ≤ (o.dup2 j).val)
    (hnd : [r0, w0, r1, w1, r2, w2].Nodup)
    (hgt : ∀ x ∈ [r0, w0, r1, w1, r2, w2], 2 < x) :
    ∃ t, (start_proccess o result args k).state.at_exec = some t ∧
      t 0 = some (.pipe_read k.npipes) ∧
      t 1 = some (.pipe_write (k.npipes + 1)) ∧
      t 2 = k.fdt 2 ∧
      t r0 = none ∧ t w0 = none ∧ t r1 = none ∧ t w1 = none ∧ t r2 = none ∧ t w2 = none := by
  obtain ⟨pipes, kf, ⟨e00, e01, e10, e11, e20, e21⟩, hfdt, _, heq⟩ :=
    start_proccess_reaches_fork o result args k r0 w0 r1 w1 r2 w2 h0 h1 h2 hs
  obtain ⟨l0, l1, l2, l3, l4, l5⟩ := piped_lookup k.fdt k.npipes r0 w0 r1 w1 r2 w2 hnd
  have f2 : kf.fdt 2 = k.fdt 2 := by
    rw [hfdt]
    refine piped_other k.fdt k.npipes r0 w0 r1 w1 r2 w2 2 (fun hmem => ?_)
    have := hgt 2 hmem
    omega
  obtain ⟨t, ht, t0, t1, t2, rest⟩ := case_0_at_exec o result args pipes o.fork.val kf
    r0 w0 r1 w1 r2 w2 e00 e01 e10 e11 e20 e21 (by simp [hfdt, l0]) (by simp [hfdt, l3]) hd hgt
  refine ⟨t, ?_, ?_, ?_, t2.trans f2, rest⟩
  · rw [heq]
    simpa [hf] using ht
  · rw [t0, hfdt, l0]
  · rw [t1, hfdt, l3]

/-- Claim C6 at a concrete launch: descriptors 3 to 8, pid 100. -/
theorem start_proccess_parent_result_witness :
    (start_proccess o_parent result_garbage [ls] k_std).val?
      = some ⟨.SUCCESS, result_garbage.err, 100, 4, 5⟩ ∧
    (start_proccess o_parent result_garbage [ls] k_std).state.fdt 3 = none ∧
    (start_proccess o_parent result_garbage [ls] k_std).state.fdt 6 = none ∧
    (4 : Int) ≠ 5 ∧
    (start_proccess o_parent result_garbage [ls] k_std).state.fdt 4
      = some (.pipe_write k_std.npipes) ∧
    (start_proccess o_parent result_garbage [ls] k_std).state.fdt 5
      = some (.pipe_read (k_std.npipes + 1)) :=
  start_proccess_parent_result o_parent result_garbage [ls] k_std 3 4 5 6 7 8 100
    rfl rfl rfl (fun _ _ => by simp [o_parent]) rfl (by decide) (by decide)

/-- Claim C8 at a concrete launch: descriptors 3 to 8, pid 100. -/
theorem start_proccess_parent_keeps_stderr_pipe_witness :
    ∃ res, (start_proccess o_parent result_garbage [ls] k_std).val? = some res ∧
      res.status = .SUCCESS ∧
      (start_proccess o_parent result_garbage [ls] k_std).state.fdt 7
        = some (.pipe_read (k_std.npipes + 2)) ∧
      (start_proccess o_parent result_garbage [ls] k_std).state.fdt 8
        = some (.pipe_write (k_std.npipes + 2)) ∧
      7 ≠ res.pipe_in ∧ 7 ≠ res.pipe_out ∧ 8 ≠ res.pipe_in ∧ 8 ≠ res.pipe_out :=
  start_proccess_parent_keeps_stderr_pipe o_parent result_garbage [ls] k_std 3 4 5 6 7 8 100
    rfl rfl rfl (fun _ _ => by simp [o_parent]) rfl (by decide) (by decide)

/-- Claim C9 at a concrete launch: descriptors 3 to 8, seen from the child. -/
theorem start_proccess_child_descriptors_witness :
    ∃ t, (start_proccess o_child result_garbage [ls] k_std).state.at_exec = some t ∧
      t 0 = some (.pipe_read k_std.npipes) ∧
      t 1 = some (.pipe_write (k_std.npipes + 1)) ∧
      t 2 = k_std.fdt 2 ∧
      t 3 = none ∧ t 4 = none ∧ t 5 = none ∧ t 6 = none ∧ t 7 = none ∧ t 8 = none :=
  start_proccess_child_descriptors o_child result_garbage [ls] k_std 3 4 5 6 7 8
    rfl rfl rfl (fun _ _ => by simp [o_child, o_parent]) rfl
    (fun _ _ => by simp [o_child, o_parent]) (by decide) (by decide)

end Exile
